import Mathlib

/-!
Shallow embedding of the mini-redis server (src/main.py): the RESP-like
frame codec (ProtocolHandler), the command dispatcher (Server.get_response),
the in-memory key-value store (Server.get/set/delete/flush/mget/mset), the
per-connection session loop (Server.connection_handler) and the client stub
(Client.execute).

Byte streams are modelled as lists of naturals (one per byte); Python's
mutable socket file is modelled by explicit state passing: every read
returns the value read together with the remaining stream.  Python
exceptions are modelled by an Except monad over an explicit error type.
-/

set_option autoImplicit false

namespace MiniRedis

abbrev ByteStream := List Nat

/-- Errors a request/response cycle can raise.  The Python code has exactly
two declared exception classes, Disconnect and CommandError; the other
constructors stand for built-in Python exceptions raised by library calls
(ValueError from int(), TypeError, AttributeError, UnicodeDecodeError).
fuelExhausted is an artifact of the fuel-indexed decoder and is unreachable
when the fuel exceeds the stream length. -/
inductive PyErr where
  | disconnect
  | commandError (msg : String)
  | valueError
  | typeError (msg : String)
  | attributeError
  | unicodeError
  | fuelExhausted
  deriving DecidableEq, Repr

/-- Decoded wire values, i.e. the Python runtime values the codec produces
and consumes: str, bytes, int, the Error namedtuple, list, dict and None. -/
inductive RValue where
  | str (s : String)
  | bytes (b : List Nat)
  | int (i : Int)
  | err (msg : String)
  | list (xs : List RValue)
  | dict (xs : List (RValue × RValue))
  | none

mutual

def rvDecEq : (a b : RValue) → Decidable (a = b)
  | .str a, .str b =>
    match decEq a b with
    | isTrue h => isTrue (by rw [h])
    | isFalse h => isFalse (by simp [h])
  | .bytes a, .bytes b =>
    match decEq a b with
    | isTrue h => isTrue (by rw [h])
    | isFalse h => isFalse (by simp [h])
  | .int a, .int b =>
    match decEq a b with
    | isTrue h => isTrue (by rw [h])
    | isFalse h => isFalse (by simp [h])
  | .err a, .err b =>
    match decEq a b with
    | isTrue h => isTrue (by rw [h])
    | isFalse h => isFalse (by simp [h])
  | .list as, .list bs =>
    match rvDecEqList as bs with
    | isTrue h => isTrue (by rw [h])
    | isFalse h => isFalse (by simp [h])
  | .dict as, .dict bs =>
    match rvDecEqPairs as bs with
    | isTrue h => isTrue (by rw [h])
    | isFalse h => isFalse (by simp [h])
  | .none, .none => isTrue rfl
  | .str _, .bytes _ => isFalse (by simp)
  | .str _, .int _ => isFalse (by simp)
  | .str _, .err _ => isFalse (by simp)
  | .str _, .list _ => isFalse (by simp)
  | .str _, .dict _ => isFalse (by simp)
  | .str _, .none => isFalse (by simp)
  | .bytes _, .str _ => isFalse (by simp)
  | .bytes _, .int _ => isFalse (by simp)
  | .bytes _, .err _ => isFalse (by simp)
  | .bytes _, .list _ => isFalse (by simp)
  | .bytes _, .dict _ => isFalse (by simp)
  | .bytes _, .none => isFalse (by simp)
  | .int _, .str _ => isFalse (by simp)
  | .int _, .bytes _ => isFalse (by simp)
  | .int _, .err _ => isFalse (by simp)
  | .int _, .list _ => isFalse (by simp)
  | .int _, .dict _ => isFalse (by simp)
  | .int _, .none => isFalse (by simp)
  | .err _, .str _ => isFalse (by simp)
  | .err _, .bytes _ => isFalse (by simp)
  | .err _, .int _ => isFalse (by simp)
  | .err _, .list _ => isFalse (by simp)
  | .err _, .dict _ => isFalse (by simp)
  | .err _, .none => isFalse (by simp)
  | .list _, .str _ => isFalse (by simp)
  | .list _, .bytes _ => isFalse (by simp)
  | .list _, .int _ => isFalse (by simp)
  | .list _, .err _ => isFalse (by simp)
  | .list _, .dict _ => isFalse (by simp)
  | .list _, .none => isFalse (by simp)
  | .dict _, .str _ => isFalse (by simp)
  | .dict _, .bytes _ => isFalse (by simp)
  | .dict _, .int _ => isFalse (by simp)
  | .dict _, .err _ => isFalse (by simp)
  | .dict _, .list _ => isFalse (by simp)
  | .dict _, .none => isFalse (by simp)
  | .none, .str _ => isFalse (by simp)
  | .none, .bytes _ => isFalse (by simp)
  | .none, .int _ => isFalse (by simp)
  | .none, .err _ => isFalse (by simp)
  | .none, .list _ => isFalse (by simp)
  | .none, .dict _ => isFalse (by simp)

def rvDecEqList : (as bs : List RValue) → Decidable (as = bs)
  | [], [] => isTrue rfl
  | [], _ :: _ => isFalse (by simp)
  | _ :: _, [] => isFalse (by simp)
  | a :: as, b :: bs =>
    match rvDecEq a b, rvDecEqList as bs with
    | isTrue h1, isTrue h2 => isTrue (by rw [h1, h2])
    | isFalse h1, _ => isFalse (by simp [h1])
    | _, isFalse h2 => isFalse (by simp [h2])

def rvDecEqPairs : (as bs : List (RValue × RValue)) → Decidable (as = bs)
  | [], [] => isTrue rfl
  | [], _ :: _ => isFalse (by simp)
  | _ :: _, [] => isFalse (by simp)
  | (k1, v1) :: as, (k2, v2) :: bs =>
    match rvDecEq k1 k2, rvDecEq v1 v2, rvDecEqPairs as bs with
    | isTrue h1, isTrue h2, isTrue h3 => isTrue (by rw [h1, h2, h3])
    | isFalse h1, _, _ => isFalse (by simp [h1])
    | _, isFalse h2, _ => isFalse (by simp [h2])
    | _, _, isFalse h3 => isFalse (by simp [h3])

end

instance : DecidableEq RValue := rvDecEq

instance {ε α : Type} [DecidableEq ε] [DecidableEq α] : DecidableEq (Except ε α) := fun a b =>
  match a, b with
  | .ok x, .ok y =>
    match decEq x y with
    | isTrue h => isTrue (by rw [h])
    | isFalse h => isFalse (by simp [h])
  | .error x, .error y =>
    match decEq x y with
    | isTrue h => isTrue (by rw [h])
    | isFalse h => isFalse (by simp [h])
  | .ok _, .error _ => isFalse (by simp)
  | .error _, .ok _ => isFalse (by simp)

/-- UTF-8 encoding of a single character, as Python's str.encode produces. -/
def utf8EncodeChar (c : Char) : List Nat :=
  let n := c.toNat
  if n < 0x80 then [n]
  else if n < 0x800 then [0xC0 + n / 0x40, 0x80 + n % 0x40]
  else if n < 0x10000 then
    [0xE0 + n / 0x1000, 0x80 + (n / 0x40) % 0x40, 0x80 + n % 0x40]
  else
    [0xF0 + n / 0x40000, 0x80 + (n / 0x1000) % 0x40,
     0x80 + (n / 0x40) % 0x40, 0x80 + n % 0x40]

/-- UTF-8 encoding of a character list (Python: str.encode with utf-8). -/
def strBytesL (cs : List Char) : List Nat := (cs.map utf8EncodeChar).flatten

/-- UTF-8 encoding of a string. -/
def strBytes (s : String) : List Nat := strBytesL s.data

/-- Is a byte a UTF-8 continuation byte? -/
def contOk (b : Nat) : Bool := 0x80 ≤ b && b < 0xC0

/-- Strict UTF-8 decoding (Python: bytes.decode with utf-8): rejects
invalid leading bytes, truncated sequences, overlong encodings,
surrogates and code points above 0x10FFFF. -/
def utf8Decode : List Nat → Option (List Char)
  | [] => some []
  | b :: rest =>
    if b < 0x80 then
      (utf8Decode rest).map (Char.ofNat b :: ·)
    else if b < 0xC0 then none
    else if b < 0xE0 then
      match rest with
      | b2 :: rest2 =>
        let c := (b - 0xC0) * 0x40 + (b2 - 0x80)
        if contOk b2 && decide (0x80 ≤ c) then
          (utf8Decode rest2).map (Char.ofNat c :: ·)
        else none
      | _ => none
    else if b < 0xF0 then
      match rest with
      | b2 :: b3 :: rest3 =>
        let c := (b - 0xE0) * 0x1000 + (b2 - 0x80) * 0x40 + (b3 - 0x80)
        if contOk b2 && contOk b3 && decide (0x800 ≤ c) &&
            !(decide (0xD800 ≤ c) && decide (c < 0xE000)) then
          (utf8Decode rest3).map (Char.ofNat c :: ·)
        else none
      | _ => none
    else if b < 0xF8 then
      match rest with
      | b2 :: b3 :: b4 :: rest4 =>
        let c := (b - 0xF0) * 0x40000 + (b2 - 0x80) * 0x1000 +
                 (b3 - 0x80) * 0x40 + (b4 - 0x80)
        if contOk b2 && contOk b3 && contOk b4 &&
            decide (0x10000 ≤ c) && decide (c ≤ 0x10FFFF) then
          (utf8Decode rest4).map (Char.ofNat c :: ·)
        else none
      | _ => none
    else none

/-- Python file.readline() on a binary stream: everything up to and
including the first newline byte, or the whole stream if none. -/
def readLine : ByteStream → ByteStream × ByteStream
  | [] => ([], [])
  | b :: rest =>
    if b = 10 then ([10], rest)
    else
      let (l, r) := readLine rest
      (b :: l, r)

/-- Python str.rstrip with chars CR and LF: drop trailing CR/LF characters. -/
def rstripCRLF (cs : List Char) : List Char :=
  (cs.reverse.dropWhile (fun c => c == Char.ofNat 13 || c == Char.ofNat 10)).reverse

/-- Accumulate the value of a run of ASCII decimal digits. -/
def digitsValAux : Nat → List Char → Option Nat
  | acc, [] => some acc
  | acc, c :: cs =>
    if 48 ≤ c.toNat && c.toNat ≤ 57 then
      digitsValAux (acc * 10 + (c.toNat - 48)) cs
    else Option.none

/-- Python int() on the canonical base-10 ASCII forms the protocol uses:
an optional sign followed by at least one ASCII digit; anything else is a
ValueError (modelled as none). -/
def pyInt (cs : List Char) : Option Int :=
  match cs with
  | [] => Option.none
  | c :: rest =>
    if c = Char.ofNat 45 then
      if rest.isEmpty then Option.none
      else (digitsValAux 0 rest).map (fun n => -(n : Int))
    else if c = Char.ofNat 43 then
      if rest.isEmpty then Option.none
      else (digitsValAux 0 rest).map (fun n => (n : Int))
    else (digitsValAux 0 cs).map (fun n => (n : Int))

/-- Python file.read(n): for non-negative n return up to n bytes (fewer at
end of stream); a negative n reads the whole remaining stream. -/
def pyRead (s : ByteStream) (n : Int) : ByteStream × ByteStream :=
  if n < 0 then (s, []) else (s.take n.toNat, s.drop n.toNat)

/-- Python slicing b with end index -2: all but the last two elements. -/
def pySliceToMinus2 (b : ByteStream) : ByteStream := b.take (b.length - 2)

/-- Read one line, decode it as UTF-8, strip the trailing CR/LF and parse
it as an integer.  This is the sequence
int(socket_file.readline().decode(utf-8).rstrip(CRLF)) that
handle_integer, handle_binary, handle_array and handle_dictionary all
perform on the stream. -/
def readIntLine (s : ByteStream) : Except PyErr (Int × ByteStream) :=
  let (l, r) := readLine s
  match utf8Decode l with
  | Option.none => .error .unicodeError
  | Option.some cs =>
    match pyInt (rstripCRLF cs) with
    | Option.none => .error .valueError
    | Option.some n => .ok (n, r)

/-- ProtocolHandler.handle_simple_string: read a line, strip CR/LF,
return it as text. -/
def handle_simple_string (s : ByteStream) : Except PyErr (RValue × ByteStream) :=
  let (l, r) := readLine s
  match utf8Decode l with
  | Option.none => .error .unicodeError
  | Option.some cs => .ok (.str (String.mk (rstripCRLF cs)), r)

/-- ProtocolHandler.handle_error_message: identical to
handle_simple_string; note that it returns the plain text of the message,
not an Error value. -/
def handle_error_message (s : ByteStream) : Except PyErr (RValue × ByteStream) :=
  let (l, r) := readLine s
  match utf8Decode l with
  | Option.none => .error .unicodeError
  | Option.some cs => .ok (.str (String.mk (rstripCRLF cs)), r)

/-- ProtocolHandler.handle_integer: read a line and parse it as an int. -/
def handle_integer (s : ByteStream) : Except PyErr (RValue × ByteStream) :=
  match readIntLine s with
  | .error e => .error e
  | .ok (n, r) => .ok (.int n, r)

/-- ProtocolHandler.handle_binary: read the declared length n; if n is -1
return None; otherwise read up to n + 2 raw bytes from the stream and
return them with the last two dropped (the Python slice to index -2).
There is no check that n + 2 bytes were actually available or that the
dropped bytes are CR/LF. -/
def handle_binary (s : ByteStream) : Except PyErr (RValue × ByteStream) :=
  match readIntLine s with
  | .error e => .error e
  | .ok (n, r) =>
    if n = -1 then .ok (.none, r)
    else
      let (raw, r2) := pyRead r (n + 2)
      .ok (.bytes (pySliceToMinus2 raw), r2)

/-- Is a Python value usable as a dict key?  Lists and dicts are
unhashable; str, bytes, int, None and the Error namedtuple are hashable. -/
def hashable : RValue → Bool
  | .list _ => false
  | .dict _ => false
  | _ => true

/-- The store's mapping, as the ordered association list underlying a
Python dict (keys unique in any state an actual dict can reach). -/
abbrev KV := List (RValue × RValue)

/-- Python dict lookup: value of the first (and in a real dict only)
entry whose key equals k. -/
def kvGet : KV → RValue → Option RValue
  | [], _ => Option.none
  | (k0, v0) :: rest, k => if k0 = k then some v0 else kvGet rest k

/-- Python dict assignment d[k] = v: overwrite in place if the key is
present, otherwise append a new entry. -/
def kvSet : KV → RValue → RValue → KV
  | [], k, v => [(k, v)]
  | (k0, v0) :: rest, k, v =>
    if k0 = k then (k0, v) :: rest else (k0, v0) :: kvSet rest k v

/-- Python del d[k]: remove the entry for k (the first one, which in a
real dict is the only one). -/
def kvDel : KV → RValue → KV
  | [], _ => []
  | (k0, v0) :: rest, k => if k0 = k then rest else (k0, v0) :: kvDel rest k

/-- Perform a sequence of dict assignments in order, raising TypeError on
an unhashable key.  This is both the loop body of Server.mset and the
dict(zip(...)) construction of handle_dictionary. -/
def dictAssignLoop : KV → List (RValue × RValue) → Except PyErr KV
  | d, [] => .ok d
  | d, (k, v) :: rest =>
    if hashable k then dictAssignLoop (kvSet d k v) rest
    else .error (.typeError "unhashable type")

mutual

/-- Python slicing l with step 2 starting at 0 (elements 0, 2, 4, ...). -/
def stepTwoFromZero : List RValue → List RValue
  | [] => []
  | a :: rest => a :: stepTwoFromOne rest

/-- Python slicing l with step 2 starting at 1 (elements 1, 3, 5, ...). -/
def stepTwoFromOne : List RValue → List RValue
  | [] => []
  | _ :: rest => stepTwoFromZero rest

end

mutual

/-- ProtocolHandler.handle_request: read the tag byte (empty stream is a
Disconnect), decode it (a byte at or above 0x80 is not valid UTF-8 on its
own), and dispatch on the tag character; an unknown tag is a KeyError,
turned into CommandError bad request.  The fuel argument bounds the
recursion depth through arrays and dictionaries; a fuel of one more than
the stream length is always sufficient, since every nested frame consumes
at least its tag byte. -/
def handle_request_fuel : Nat → ByteStream → Except PyErr (RValue × ByteStream)
  | 0, _ => .error .fuelExhausted
  | _ + 1, [] => .error .disconnect
  | Nat.succ f, b :: rest =>
    if b < 0x80 then
      -- tag bytes: 43 is +, 45 is -, 58 is :, 36 is dollar, 42 is *, 37 is %
      if b = 43 then handle_simple_string rest
      else if b = 45 then handle_error_message rest
      else if b = 58 then handle_integer rest
      else if b = 36 then handle_binary rest
      else if b = 42 then
        match readIntLine rest with
        | .error e => .error e
        | .ok (n, r) =>
          match handle_many f n.toNat r with
          | .error e => .error e
          | .ok (vs, r2) => .ok (.list vs, r2)
      else if b = 37 then
        match readIntLine rest with
        | .error e => .error e
        | .ok (n, r) =>
          match handle_many f (n.toNat * 2) r with
          | .error e => .error e
          | .ok (vs, r2) =>
            match dictAssignLoop [] ((stepTwoFromZero vs).zip (stepTwoFromOne vs)) with
            | .error e => .error e
            | .ok d => .ok (.dict d, r2)
      else .error (.commandError "bad request")
    else .error .unicodeError

/-- Decode a fixed number of consecutive frames (the comprehension in
handle_array and handle_dictionary).  Fuel is also consumed per element,
which keeps the recursion structural; a fuel of one more than the stream
length still always suffices, because every decoded frame consumes at
least one byte. -/
def handle_many : Nat → Nat → ByteStream → Except PyErr (List RValue × ByteStream)
  | _, 0, s => .ok ([], s)
  | 0, _ + 1, _ => .error .fuelExhausted
  | Nat.succ f, n + 1, s =>
    match handle_request_fuel f s with
    | .error e => .error e
    | .ok (v, s2) =>
      match handle_many f n s2 with
      | .error e => .error e
      | .ok (vs, s3) => .ok (v :: vs, s3)

end

/-- Decode one frame from the stream, with enough fuel for any nesting
the stream could possibly hold. -/
def handle_request (s : ByteStream) : Except PyErr (RValue × ByteStream) :=
  handle_request_fuel (s.length + 1) s

/-- Decimal digits of an integer, as Python str(int) renders it. -/
def intChars (i : Int) : List Char := (toString i).data

/-- Decimal digits of a natural number. -/
def natChars (n : Nat) : List Char := (toString n).data

/-- Hexadecimal digit character (lowercase), for the repr of bytes. -/
def hexDigitChar (n : Nat) : Char := Char.ofNat (if n < 10 then 48 + n else 87 + n)

/-- Quote character Python repr picks for a bytes object: a double quote
(34) when the payload contains a single quote (39) but no double quote,
otherwise a single quote. -/
def reprQuote (bs : List Nat) : Nat :=
  if bs.contains 39 && !(bs.contains 34) then 34 else 39

/-- Representation of one byte inside the repr of a bytes object:
backslash (92) and the quote character are backslash-escaped, tab,
newline and carriage return become the two-character escapes, other
printable ASCII bytes stand for themselves and everything else becomes a
four-character hex escape. -/
def reprByte (q b : Nat) : List Char :=
  if b = 92 then [Char.ofNat 92, Char.ofNat 92]
  else if b = q then [Char.ofNat 92, Char.ofNat q]
  else if b = 9 then [Char.ofNat 92, Char.ofNat 116]
  else if b = 10 then [Char.ofNat 92, Char.ofNat 110]
  else if b = 13 then [Char.ofNat 92, Char.ofNat 114]
  else if 32 ≤ b && b ≤ 126 then [Char.ofNat b]
  else [Char.ofNat 92, Char.ofNat 120, hexDigitChar (b / 16), hexDigitChar (b % 16)]

/-- Python repr of a bytes object, which is what interpolating bytes into
a str with the percent-s format specifier produces: the letter b, a
quote, the escaped bytes, and the closing quote. -/
def pyBytesRepr (bs : List Nat) : List Char :=
  let q := reprQuote bs
  Char.ofNat 98 :: Char.ofNat q :: (bs.map (reprByte q)).flatten ++ [Char.ofNat q]

/-- Carriage return and line feed, the frame terminator characters. -/
def crlfChars : List Char := [Char.ofNat 13, Char.ofNat 10]

/-- Bytes written for a bytes payload by ProtocolHandler._write: the
Python format string interpolates len(data) as decimal digits but data
itself through its repr, so the emitted frame is the dollar tag, the raw
byte length, CR LF, the repr text of the payload, CR LF — the length
prefix counts the raw bytes while the payload text is the repr. -/
def bulkFrame (data : List Nat) : List Nat :=
  strBytesL (Char.ofNat 36 :: natChars data.length ++ crlfChars ++ pyBytesRepr data ++ crlfChars)

/-- Bytes written for an Error reply: minus tag, message, CR LF. -/
def errorFrame (m : String) : List Nat :=
  strBytesL (Char.ofNat 45 :: m.data ++ crlfChars)

/-- Bytes written for an integer reply: colon tag, digits, CR LF. -/
def integerFrame (i : Int) : List Nat :=
  strBytesL (Char.ofNat 58 :: intChars i ++ crlfChars)

mutual

/-- ProtocolHandler._write: encode one value into bytes.  A str is first
UTF-8 encoded and then treated as bytes; bytes become a length-prefixed
frame (via bulkFrame, with the repr defect); an int becomes a colon
frame; an Error becomes a minus frame; a list becomes a star frame
followed by its encoded elements; a dict becomes a percent frame followed
by each key and value in insertion order; None reaches
buf.write with a str argument, which raises TypeError on the bytes
buffer. -/
def _write : RValue → Except PyErr (List Nat)
  | .str s => .ok (bulkFrame (strBytes s))
  | .bytes b => .ok (bulkFrame b)
  | .int i => .ok (integerFrame i)
  | .err m => .ok (errorFrame m)
  | .list xs =>
    match writeSeq xs with
    | .error e => .error e
    | .ok body =>
      .ok (strBytesL (Char.ofNat 42 :: natChars xs.length ++ crlfChars) ++ body)
  | .dict ps =>
    match writePairSeq ps with
    | .error e => .error e
    | .ok body =>
      .ok (strBytesL (Char.ofNat 37 :: natChars ps.length ++ crlfChars) ++ body)
  | .none => .error (.typeError "a bytes-like object is required, not str")

/-- Encode the elements of a list, in order. -/
def writeSeq : List RValue → Except PyErr (List Nat)
  | [] => .ok []
  | x :: xs =>
    match _write x with
    | .error e => .error e
    | .ok bx =>
      match writeSeq xs with
      | .error e => .error e
      | .ok rest => .ok (bx ++ rest)

/-- Encode the key/value pairs of a dict, key then value, in order. -/
def writePairSeq : List (RValue × RValue) → Except PyErr (List Nat)
  | [] => .ok []
  | (k, v) :: ps =>
    match _write k with
    | .error e => .error e
    | .ok bk =>
      match _write v with
      | .error e => .error e
      | .ok bv =>
        match writePairSeq ps with
        | .error e => .error e
        | .ok rest => .ok (bk ++ bv ++ rest)

end

namespace Server

/-- Server.get: return the stored value for key, or None when absent.
Python dict.get raises TypeError on an unhashable key.  The store is
returned unchanged. -/
def get (kv : KV) (key : RValue) : Except PyErr (KV × RValue) :=
  if hashable key then .ok (kv, (kvGet kv key).getD .none)
  else .error (.typeError "unhashable type")

/-- Server.set: insert or overwrite the binding for key and return the
integer 1. -/
def set (kv : KV) (key value : RValue) : Except PyErr (KV × RValue) :=
  if hashable key then .ok (kvSet kv key value, .int 1)
  else .error (.typeError "unhashable type")

/-- Server.delete: remove the binding for key if present.  Returns the
integer 1 when the key was present, 0 otherwise. -/
def delete (kv : KV) (key : RValue) : Except PyErr (KV × RValue) :=
  if hashable key then
    match kvGet kv key with
    | Option.some _ => .ok (kvDel kv key, .int 1)
    | Option.none => .ok (kv, .int 0)
  else .error (.typeError "unhashable type")

/-- Server.flush: clear the store, returning the previous entry count. -/
def flush (kv : KV) : Except PyErr (KV × RValue) :=
  .ok ([], .int kv.length)

/-- Per-key lookups of Server.mget, left to right; the first unhashable
key raises TypeError. -/
def mgetVals (kv : KV) : List RValue → Except PyErr (List RValue)
  | [] => .ok []
  | k :: ks =>
    if hashable k then
      match mgetVals kv ks with
      | .error e => .error e
      | .ok vs => .ok ((kvGet kv k).getD .none :: vs)
    else .error (.typeError "unhashable type")

/-- Server.mget: one GET-style result per requested key, in request
order.  The store is returned unchanged. -/
def mget (kv : KV) (keys : List RValue) : Except PyErr (KV × RValue) :=
  match mgetVals kv keys with
  | .error e => .error e
  | .ok vs => .ok (kv, .list vs)

/-- Server.mset: zip the even-position arguments with the odd-position
arguments (zip truncates, so a trailing unpaired argument is dropped),
assign each pair in order, and return the integer 1. -/
def mset (kv : KV) (items : List RValue) : Except PyErr (KV × RValue) :=
  match dictAssignLoop kv ((stepTwoFromZero items).zip (stepTwoFromOne items)) with
  | .error e => .error e
  | .ok kv2 => .ok (kv2, .int 1)

/-- Command names in the Server.get_commands table. -/
def commandNames : List String := ["GET", "SET", "FLUSH", "DELETE", "MGET", "MSET"]

/-- Python str.upper restricted to ASCII, which is all the protocol's
command names use. -/
def pyCharUpper (c : Char) : Char :=
  if 97 ≤ c.toNat && c.toNat ≤ 122 then Char.ofNat (c.toNat - 32) else c

/-- Upper-case a string the way Python str.upper does on ASCII text. -/
def pyUpper (s : String) : String := String.mk (s.data.map pyCharUpper)

/-- Python bytes.upper: upper-case the ASCII letters of a byte string. -/
def pyBytesUpper (bs : List Nat) : List Nat :=
  bs.map (fun b => if 97 ≤ b && b ≤ 122 then b - 32 else b)

/-- Invoke the handler a command name maps to in the command table with
the given positional arguments.  A fixed-arity handler called with the
wrong number of arguments raises TypeError.  Callers only reach this
after a successful table lookup, so the fallthrough branch repeats the
unknown-command failure. -/
def applyCommand (name : String) (args : List RValue) (kv : KV) :
    Except PyErr (KV × RValue) :=
  if name = "GET" then
    match args with
    | [k] => get kv k
    | _ => .error (.typeError "wrong number of arguments")
  else if name = "SET" then
    match args with
    | [k, v] => set kv k v
    | _ => .error (.typeError "wrong number of arguments")
  else if name = "FLUSH" then
    match args with
    | [] => flush kv
    | _ => .error (.typeError "wrong number of arguments")
  else if name = "DELETE" then
    match args with
    | [k] => delete kv k
    | _ => .error (.typeError "wrong number of arguments")
  else if name = "MGET" then mget kv args
  else if name = "MSET" then mset kv args
  else .error (.commandError ("Command " ++ name ++ " does not exist"))

/-- Server.get_response on a list request: an empty list is "No command
provided"; otherwise the first element is upper-cased with .upper() and
looked up in the command table.  A str first element upper-cases to a
str; a bytes first element upper-cases to bytes, which can never equal a
str table key, so the lookup always fails and the message interpolates
the bytes through their repr.  Any other first element has no .upper()
method and raises AttributeError. -/
def dispatchList (kv : KV) (items : List RValue) : Except PyErr (KV × RValue) :=
  match items with
  | [] => .error (.commandError "No command provided")
  | first :: args =>
    match first with
    | .str s =>
      let command := pyUpper s
      if commandNames.contains command then applyCommand command args kv
      else .error (.commandError ("Command " ++ command ++ " does not exist"))
    | .bytes b =>
      .error (.commandError
        ("Command " ++ String.mk (pyBytesRepr (pyBytesUpper b)) ++ " does not exist"))
    | _ => .error .attributeError

/-- Server.get_response on a str request.  The code calls data.split()
only inside a try block and discards the result, so the string is never
actually split: an empty string is "No command provided", and otherwise
data[0] — the first character — is upper-cased and looked up in the
command table, with the remaining characters passed one by one as the
arguments. -/
def dispatchStr (kv : KV) (s : String) : Except PyErr (KV × RValue) :=
  match s.data with
  | [] => .error (.commandError "No command provided")
  | c :: restChars =>
    let command := pyUpper (String.mk [c])
    if commandNames.contains command then
      applyCommand command (restChars.map (fun ch => RValue.str (String.mk [ch]))) kv
    else .error (.commandError ("Command " ++ command ++ " does not exist"))

/-- Server.get_response: a list request dispatches on its elements; a str
request passes the split() type probe but is dispatched unsplit; a bytes
request also passes the probe (bytes has a split method) and then either
fails the truthiness check when empty or raises AttributeError when
data[0], an int, has no .upper(); every other shape has no split method,
so the bare except converts the AttributeError into CommandError
"Argument must be list or string". -/
def get_response (kv : KV) (data : RValue) : Except PyErr (KV × RValue) :=
  match data with
  | .list items => dispatchList kv items
  | .str s => dispatchStr kv s
  | .bytes b =>
    if b.isEmpty then .error (.commandError "No command provided")
    else .error .attributeError
  | _ => .error (.commandError "Argument must be list or string")

end Server

/-- Outcome of one iteration of Server.connection_handler's loop. -/
inductive StepResult where
  | closed
  | fatal (e : PyErr)
  | reply (kv : KV) (out : List Nat) (rest : ByteStream)
  deriving DecidableEq

/-- One iteration of the session loop in Server.connection_handler:
decode a request (Disconnect ends the session cleanly; any other decode
exception, including the CommandError for a bad tag, propagates and kills
the session), dispatch it (a CommandError becomes an Error reply, any
other exception propagates), and encode and write the reply (an encode
exception propagates).  A reply result means the loop iterates again. -/
def sessionStep (kv : KV) (s : ByteStream) : StepResult :=
  match handle_request s with
  | .error .disconnect => .closed
  | .error e => .fatal e
  | .ok (data, rest) =>
    match Server.get_response kv data with
    | .ok (kv2, resp) =>
      match _write resp with
      | .ok out => .reply kv2 out rest
      | .error e => .fatal e
    | .error (.commandError m) =>
      match _write (.err m) with
      | .ok out => .reply kv out rest
      | .error e => .fatal e
    | .error e => .fatal e

/-- Outcome of Client.execute after the reply stream comes back. -/
inductive ClientOutcome where
  | raised (msg : String)
  | value (v : RValue)
  | ioError (e : PyErr)
  deriving DecidableEq

/-- The reply half of Client.execute: decode exactly one reply frame and
raise CommandError when the decoded value is an Error instance, otherwise
return the value. -/
def clientDecodeReply (s : ByteStream) : ClientOutcome :=
  match handle_request s with
  | .error e => .ioError e
  | .ok (v, _) =>
    match v with
    | .err m => .raised m
    | _ => .value v

/-- Keys of the association list are pairwise distinct, as in every state
a Python dict can actually be in. -/
abbrev kvNodup (kv : KV) : Prop := kv.Pairwise (fun a b => a.1 ≠ b.1)

/-- Consecutive disjoint pairs of a list, dropping a trailing unpaired
element: the pairs MSET is specified to apply. -/
def pairChunks : List RValue → List (RValue × RValue)
  | a :: b :: rest => (a, b) :: pairChunks rest
  | _ => []

theorem kvGet_kvSet_self (kv : KV) (k v : RValue) :
    kvGet (kvSet kv k v) k = some v := by
  induction kv with
  | nil => simp [kvSet, kvGet]
  | cons p rest ih =>
    obtain ⟨k0, v0⟩ := p
    by_cases h : k0 = k
    · simp [kvSet, kvGet, h]
    · simp [kvSet, kvGet, h, ih]

theorem kvGet_kvSet_ne (kv : KV) (k v k' : RValue) (h : k' ≠ k) :
    kvGet (kvSet kv k v) k' = kvGet kv k' := by
  have hkk : k ≠ k' := fun e => h e.symm
  induction kv with
  | nil => simp [kvSet, kvGet, hkk]
  | cons p rest ih =>
    obtain ⟨k0, v0⟩ := p
    by_cases h0 : k0 = k
    · have hk0 : k0 ≠ k' := h0 ▸ hkk
      simp [kvSet, if_pos h0, kvGet, hk0]
    · simp only [kvSet, if_neg h0, kvGet, ih]

theorem kvGet_eq_none_of_forall (kv : KV) (k : RValue)
    (h : ∀ p ∈ kv, p.1 ≠ k) : kvGet kv k = Option.none := by
  induction kv with
  | nil => rfl
  | cons p rest ih =>
    obtain ⟨k0, v0⟩ := p
    have hk0 : k0 ≠ k := h (k0, v0) (List.mem_cons_self _ _)
    simp only [kvGet, if_neg hk0]
    exact ih (fun q hq => h q (List.mem_cons_of_mem _ hq))

theorem kvGet_kvDel_self (kv : KV) (k : RValue) (h : kvNodup kv) :
    kvGet (kvDel kv k) k = Option.none := by
  induction kv with
  | nil => rfl
  | cons p rest ih =>
    obtain ⟨k0, v0⟩ := p
    have h := List.pairwise_cons.mp h
    by_cases h0 : k0 = k
    · simp only [kvDel, if_pos h0]
      exact kvGet_eq_none_of_forall rest k
        (fun q hq => fun e => h.1 q hq (h0.trans e.symm))
    · simp only [kvDel, if_neg h0, kvGet, if_neg h0]
      exact ih h.2

theorem kvGet_kvDel_ne (kv : KV) (k k' : RValue) (h : k' ≠ k) :
    kvGet (kvDel kv k) k' = kvGet kv k' := by
  have hkk : k ≠ k' := fun e => h e.symm
  induction kv with
  | nil => rfl
  | cons p rest ih =>
    obtain ⟨k0, v0⟩ := p
    by_cases h0 : k0 = k
    · have hk0 : k0 ≠ k' := h0 ▸ hkk
      simp [kvDel, if_pos h0, kvGet, hk0]
    · simp only [kvDel, if_neg h0, kvGet, ih]

theorem kvDel_sublist (kv : KV) (k : RValue) : (kvDel kv k).Sublist kv := by
  induction kv with
  | nil => simp [kvDel]
  | cons p rest ih =>
    obtain ⟨k0, v0⟩ := p
    by_cases h0 : k0 = k
    · simpa [kvDel, h0] using List.sublist_cons_self (k0, v0) rest
    · simpa [kvDel, h0] using ih.cons₂ (k0, v0)

theorem kvNodup_kvDel (kv : KV) (k : RValue) (h : kvNodup kv) :
    kvNodup (kvDel kv k) :=
  List.Pairwise.sublist (kvDel_sublist kv k) h

theorem mgetVals_eq (kv : KV) (keys : List RValue)
    (h : ∀ k ∈ keys, hashable k = true) :
    Server.mgetVals kv keys =
      .ok (keys.map (fun k => (kvGet kv k).getD .none)) := by
  induction keys with
  | nil => rfl
  | cons k ks ih =>
    simp only [Server.mgetVals, if_pos (h k (List.mem_cons_self _ _)),
      ih (fun q hq => h q (List.mem_cons_of_mem _ hq)), List.map]

theorem dictAssignLoop_eq (ps : List (RValue × RValue)) (d : KV)
    (h : ∀ p ∈ ps, hashable p.1 = true) :
    dictAssignLoop d ps =
      .ok (ps.foldl (fun acc p => kvSet acc p.1 p.2) d) := by
  induction ps generalizing d with
  | nil => rfl
  | cons p rest ih =>
    obtain ⟨k, v⟩ := p
    simp only [dictAssignLoop, if_pos (h (k, v) (List.mem_cons_self _ _)),
      ih (kvSet d k v) (fun q hq => h q (List.mem_cons_of_mem _ hq)), List.foldl]

theorem zip_step_eq_pairChunks :
    ∀ l : List RValue, (stepTwoFromZero l).zip (stepTwoFromOne l) = pairChunks l
  | [] => rfl
  | [_] => rfl
  | a :: b :: rest => by
    simp only [stepTwoFromZero, stepTwoFromOne, pairChunks, List.zip_cons_cons]
    exact congrArg _ (zip_step_eq_pairChunks rest)

theorem pairChunks_dropLast :
    ∀ l : List RValue, l.length % 2 = 1 → pairChunks l.dropLast = pairChunks l
  | [], h => by simp at h
  | [_], _ => rfl
  | a :: b :: rest, h => by
    have hr : rest.length % 2 = 1 := by
      simp only [List.length_cons] at h
      omega
    have hne : rest ≠ [] := by
      intro he
      rw [he] at hr
      simp at hr
    have hdrop : (a :: b :: rest).dropLast = a :: b :: rest.dropLast := by
      cases rest with
      | nil => exact absurd rfl hne
      | cons c rest2 => simp [List.dropLast]
    rw [hdrop]
    simp only [pairChunks]
    exact congrArg _ (pairChunks_dropLast rest hr)

theorem handle_request_bulk (s : ByteStream) :
    handle_request (36 :: s) = handle_binary s := by
  simp [handle_request, handle_request_fuel]

theorem handle_request_errtag (s : ByteStream) :
    handle_request (45 :: s) = handle_error_message s := by
  simp [handle_request, handle_request_fuel]

/-- C1: the claimed codec round-trip decode(encode(v)) = v fails already
on the three-byte bulk string abc: the encoder interpolates the payload
bytes through their Python repr while the length prefix counts the raw
bytes, so encoding yields the twelve bytes of $3 CRLF b'abc' CRLF, and
decoding that stream returns the three bytes b, quote, a — not abc — with
three bytes of the frame left unconsumed. -/
theorem c1_roundtrip_fails_on_bulkstring :
    _write (.bytes (strBytes "abc")) = .ok (strBytes "$3\r\nb'abc'\r\n") ∧
    handle_request (strBytes "$3\r\nb'abc'\r\n") =
      .ok (.bytes (strBytes "b'a"), [39, 13, 10]) ∧
    RValue.bytes (strBytes "b'a") ≠ RValue.bytes (strBytes "abc") := by
  decide

/-- C2 counterexample: decoding the truncated bulk-string frame $5 CRLF
followed by only two payload bytes does not fail at all — it succeeds,
consuming the whole stream and returning an empty payload instead of the
declared five bytes. -/
theorem c2_truncated_bulk_counterexample :
    handle_request (strBytes "$5\r\nab") = .ok (.bytes [], []) := by
  decide

/-- C2 amended: for every bulk-string frame whose declared length n
exceeds the bytes remaining after the length line, decode does not raise:
it consumes the whole remainder and silently returns it with the last two
bytes dropped, a payload strictly shorter than the declared length. -/
theorem c2_amended_truncated_bulk_silently_short (s l r : ByteStream)
    (cs : List Char) (n : Nat)
    (h1 : readLine s = (l, r))
    (h2 : utf8Decode l = some cs)
    (h3 : pyInt (rstripCRLF cs) = some (n : Int))
    (h4 : r.length < n) :
    handle_request (36 :: s) = .ok (.bytes (r.take (r.length - 2)), []) ∧
    r.length - 2 < n := by
  refine ⟨?_, by omega⟩
  have h4 : r.length < n + 2 := by omega
  rw [handle_request_bulk]
  unfold handle_binary readIntLine
  rw [h1]
  simp only [h2, h3]
  have hn1 : ¬((n : Int) = -1) := by omega
  rw [if_neg hn1]
  have hneg : ¬((n : Int) + 2 < 0) := by omega
  unfold pyRead
  rw [if_neg hneg]
  have htn : ((n : Int) + 2).toNat = n + 2 := by omega
  rw [htn]
  rw [List.take_of_length_le (le_of_lt h4), List.drop_of_length_le (le_of_lt h4)]
  rfl

/-- C2 amended, witnessed at the concrete stream $5 CRLF ab. -/
theorem c2_amended_truncated_bulk_witness :
    handle_request (36 :: [53, 13, 10, 97, 98]) =
      .ok (.bytes (([97, 98] : ByteStream).take (([97, 98] : ByteStream).length - 2)), []) ∧
    ([97, 98] : ByteStream).length - 2 < 5 :=
  c2_amended_truncated_bulk_silently_short [53, 13, 10, 97, 98] [53, 13, 10]
    [97, 98] [Char.ofNat 53, Char.ofNat 13, Char.ofNat 10] 5
    (by decide) (by decide) (by decide) (by decide)

/-- C3: the decode direction holds — the five-byte frame $-1 CRLF decodes
to None with nothing left over — but the encode direction crashes: the
None branch of _write passes a str to the bytes buffer, raising
TypeError, so encode(Null) produces no bytes at all. -/
theorem c3_null_decode_ok_encode_crashes :
    handle_request (strBytes "$-1\r\n") = .ok (.none, []) ∧
    _write .none = .error (.typeError "a bytes-like object is required, not str") := by
  decide

/-- C4: an ErrorValue reply frame does not make the client raise.
For every error frame — minus tag followed by any line that decodes as
UTF-8 — the decoder returns the message as a plain str rather than an
Error instance, so Client.execute's isinstance check never fires and the
value is returned normally. -/
theorem c4_error_reply_returned_not_raised (s l r : ByteStream) (cs : List Char)
    (h1 : readLine s = (l, r)) (h2 : utf8Decode l = some cs) :
    clientDecodeReply (45 :: s) = .value (.str (String.mk (rstripCRLF cs))) := by
  unfold clientDecodeReply
  rw [handle_request_errtag]
  unfold handle_error_message
  rw [h1]
  simp only [h2]

/-- C4, witnessed at the concrete reply frame -oops CRLF: the client
returns the string oops instead of raising. -/
theorem c4_error_reply_witness :
    clientDecodeReply (45 :: strBytes "oops\r\n") = .value (.str "oops") := by
  have h := c4_error_reply_returned_not_raised (strBytes "oops\r\n")
    (strBytes "oops\r\n") []
    [Char.ofNat 111, Char.ofNat 111, Char.ofNat 112, Char.ofNat 115,
     Char.ofNat 13, Char.ofNat 10] (by decide) (by decide)
  rw [h]
  decide

/-- C5: a whitespace-delimited text command is not split: get_response
calls split() only as a type probe and discards the result, so the
request string GET space k is dispatched on its first character G and
fails with Command G does not exist, whereas the same command arriving as
the list GET, k dispatches fine; a request of non-list, non-string shape
(an int) does fail with Argument must be list or string. -/
theorem c5_text_command_dispatched_on_first_char :
    Server.get_response [] (.str "GET k") =
      .error (.commandError "Command G does not exist") ∧
    Server.get_response [] (.list [.str "GET", .str "k"]) = .ok ([], .none) ∧
    Server.get_response [] (.int 0) =
      .error (.commandError "Argument must be list or string") := by
  decide

/-- C6: for decoded (well-formed) requests, dispatch upper-cases the
command name, so the list requests starting with get and GET are handled
identically; an unknown command FOO fails with CommandError Command FOO
does not exist; and whenever dispatch of a decoded request raises any
CommandError, the session loop converts it to an ErrorValue reply written
back on the wire, leaving the store untouched and the session running (a
reply step, not a closed or fatal one) — a session never terminates on a
CommandError from dispatch. -/
theorem c6_case_insensitive_commanderror_recovered (kv : KV)
    (args : List RValue) (s : ByteStream) (data : RValue) (rest : ByteStream)
    (m : String)
    (h1 : handle_request s = .ok (data, rest))
    (h2 : Server.get_response kv data = .error (.commandError m)) :
    Server.get_response kv (.list (.str "get" :: args)) =
      Server.get_response kv (.list (.str "GET" :: args)) ∧
    Server.get_response kv (.list [.str "FOO"]) =
      .error (.commandError "Command FOO does not exist") ∧
    sessionStep kv s = .reply kv (errorFrame m) rest := by
  refine ⟨?_, ?_, ?_⟩
  · have hget : Server.pyUpper "get" = "GET" := by decide
    have hGET : Server.pyUpper "GET" = "GET" := by decide
    simp only [Server.get_response, Server.dispatchList, hget, hGET]
  · have hfoo : Server.pyUpper "FOO" = "FOO" := by decide
    have hmem : Server.commandNames.contains "FOO" = false := by decide
    simp only [Server.get_response, Server.dispatchList, hfoo, hmem,
      Bool.false_eq_true, if_false]
    rfl
  · unfold sessionStep
    rw [h1]
    simp only [h2]
    simp [_write]

/-- C6, witnessed at the request frame *1 CRLF +FOO CRLF against the
empty store: the step replies with the unknown-command error frame and
the session continues. -/
theorem c6_witness :
    Server.get_response ([] : KV) (.list (.str "get" :: [])) =
      Server.get_response ([] : KV) (.list (.str "GET" :: [])) ∧
    Server.get_response ([] : KV) (.list [.str "FOO"]) =
      .error (.commandError "Command FOO does not exist") ∧
    sessionStep [] (strBytes "*1\r\n+FOO\r\n") =
      .reply [] (errorFrame "Command FOO does not exist") [] :=
  c6_case_insensitive_commanderror_recovered [] [] (strBytes "*1\r\n+FOO\r\n")
    (.list [.str "FOO"]) [] "Command FOO does not exist"
    (by decide) (by decide)

/-- C7: with a hashable key against a duplicate-free store, SET returns
the integer 1 and stores the binding; GET after SET returns the value
just set; GET after DELETE returns None; DELETE returns the integer 1
when the key is bound and 0 when it is not, so deleting twice in a row
returns 0 the second time. -/
theorem c7_set_get_delete_roundtrip (kv : KV) (k v w : RValue)
    (hk : hashable k = true) (hnd : kvNodup kv) :
    Server.set kv k v = .ok (kvSet kv k v, .int 1) ∧
    Server.get (kvSet kv k v) k = .ok (kvSet kv k v, v) ∧
    Server.get (kvDel kv k) k = .ok (kvDel kv k, .none) ∧
    (kvGet kv k = some w → Server.delete kv k = .ok (kvDel kv k, .int 1)) ∧
    (kvGet kv k = Option.none → Server.delete kv k = .ok (kv, .int 0)) ∧
    Server.delete (kvDel kv k) k = .ok (kvDel kv k, .int 0) := by
  refine ⟨?_, ?_, ?_, ?_, ?_, ?_⟩
  · unfold Server.set
    rw [if_pos hk]
  · unfold Server.get
    rw [if_pos hk, kvGet_kvSet_self]
    rfl
  · unfold Server.get
    rw [if_pos hk, kvGet_kvDel_self kv k hnd]
    rfl
  · intro h
    unfold Server.delete
    rw [if_pos hk, h]
  · intro h
    unfold Server.delete
    rw [if_pos hk, h]
  · unfold Server.delete
    rw [if_pos hk, kvGet_kvDel_self kv k hnd]

/-- C7, witnessed at the store holding a bound to w, with key a and
value v. -/
theorem c7_set_get_delete_witness :
    Server.set [(.str "a", .str "w")] (.str "a") (.str "v") =
      .ok (kvSet [(.str "a", .str "w")] (.str "a") (.str "v"), .int 1) ∧
    Server.get (kvSet [(.str "a", .str "w")] (.str "a") (.str "v")) (.str "a") =
      .ok (kvSet [(.str "a", .str "w")] (.str "a") (.str "v"), .str "v") ∧
    Server.get (kvDel [(.str "a", .str "w")] (.str "a")) (.str "a") =
      .ok (kvDel [(.str "a", .str "w")] (.str "a"), .none) ∧
    (kvGet [(.str "a", .str "w")] (.str "a") = some (.str "w") →
      Server.delete [(.str "a", .str "w")] (.str "a") =
        .ok (kvDel [(.str "a", .str "w")] (.str "a"), .int 1)) ∧
    (kvGet [(.str "a", .str "w")] (.str "a") = Option.none →
      Server.delete [(.str "a", .str "w")] (.str "a") =
        .ok ([(.str "a", .str "w")], .int 0)) ∧
    Server.delete (kvDel [(.str "a", .str "w")] (.str "a")) (.str "a") =
      .ok (kvDel [(.str "a", .str "w")] (.str "a"), .int 0) :=
  c7_set_get_delete_roundtrip [(.str "a", .str "w")] (.str "a") (.str "v")
    (.str "w") (by decide) (by simp)

/-- C8: when every requested key is hashable, MGET returns the list of
per-key GET results — stored value or None — in exactly the order of the
requested keys, each key looked up independently (the map formula applies
to duplicates as much as to distinct keys), leaving the store unchanged;
and concretely, MSET a 1 b 2 followed by MGET a b c returns the ordered
list 1, 2, None. -/
theorem c8_mget_ordered_get_semantics (kv : KV) (keys : List RValue)
    (h : ∀ k ∈ keys, hashable k = true) :
    Server.mget kv keys =
      .ok (kv, .list (keys.map (fun k => (kvGet kv k).getD .none))) ∧
    Server.mset [] [.str "a", .str "1", .str "b", .str "2"] =
      .ok ([(.str "a", .str "1"), (.str "b", .str "2")], .int 1) ∧
    Server.mget [(.str "a", .str "1"), (.str "b", .str "2")]
        [.str "a", .str "b", .str "c"] =
      .ok ([(.str "a", .str "1"), (.str "b", .str "2")],
        .list [.str "1", .str "2", .none]) := by
  refine ⟨?_, by decide, by decide⟩
  unfold Server.mget
  rw [mgetVals_eq kv keys h]

/-- C8, witnessed with a duplicated requested key, each occurrence
resolved independently. -/
theorem c8_mget_witness :
    Server.mget [(.str "a", .str "1")] [.str "a", .str "b", .str "a"] =
      .ok ([(.str "a", .str "1")],
        .list ([.str "a", .str "b", .str "a"].map
          (fun k => (kvGet [(.str "a", .str "1")] k).getD .none))) ∧
    Server.mset [] [.str "a", .str "1", .str "b", .str "2"] =
      .ok ([(.str "a", .str "1"), (.str "b", .str "2")], .int 1) ∧
    Server.mget [(.str "a", .str "1"), (.str "b", .str "2")]
        [.str "a", .str "b", .str "c"] =
      .ok ([(.str "a", .str "1"), (.str "b", .str "2")],
        .list [.str "1", .str "2", .none]) :=
  c8_mget_ordered_get_semantics [(.str "a", .str "1")]
    [.str "a", .str "b", .str "a"] (by decide)

/-- C9: MSET applies exactly the consecutive argument pairs, in order,
as SET assignments and returns the integer 1 — and since zip truncates to
the shorter slice, an odd-length argument list behaves exactly as if its
trailing unpaired argument had been dropped: no error is raised. -/
theorem c9_mset_pairs_in_order_truncating (kv : KV) (items : List RValue)
    (h : ∀ p ∈ pairChunks items, hashable p.1 = true) :
    Server.mset kv items =
      .ok ((pairChunks items).foldl (fun acc p => kvSet acc p.1 p.2) kv, .int 1) ∧
    (items.length % 2 = 1 → Server.mset kv items = Server.mset kv items.dropLast) := by
  constructor
  · unfold Server.mset
    rw [zip_step_eq_pairChunks, dictAssignLoop_eq (pairChunks items) kv h]
  · intro hodd
    unfold Server.mset
    rw [zip_step_eq_pairChunks, zip_step_eq_pairChunks,
      pairChunks_dropLast items hodd]

/-- C9, witnessed at the odd-length argument list a, 1, x: the pair a
maps to 1 is applied, the trailing x is dropped, and the reply is 1. -/
theorem c9_mset_witness :
    Server.mset [] [.str "a", .str "1", .str "x"] =
      .ok ((pairChunks [.str "a", .str "1", .str "x"]).foldl
        (fun acc p => kvSet acc p.1 p.2) [], .int 1) ∧
    (([RValue.str "a", RValue.str "1", RValue.str "x"] : List RValue).length % 2 = 1 →
      Server.mset [] [.str "a", .str "1", .str "x"] =
        Server.mset [] ([RValue.str "a", RValue.str "1", RValue.str "x"].dropLast)) :=
  c9_mset_pairs_in_order_truncating [] [.str "a", .str "1", .str "x"] (by decide)

/-- C10: frame property of the store operations.  A successful GET or
MGET leaves the store exactly as it was; a successful SET of key k
changes no binding of any other key; a successful DELETE of key k leaves
every other key's binding unchanged and, in a duplicate-free store,
leaves k itself unbound — so nothing beyond the binding of k is ever
touched. -/
theorem c10_store_frame (kv : KV) (k v k' : RValue) (keys : List RValue)
    (hne : k' ≠ k) (hk : hashable k = true) (hnd : kvNodup kv)
    (hkeys : ∀ a ∈ keys, hashable a = true) :
    (Server.get kv k).map Prod.fst = .ok kv ∧
    (Server.mget kv keys).map Prod.fst = .ok kv ∧
    (Server.set kv k v).map (fun r => kvGet r.1 k') = .ok (kvGet kv k') ∧
    (Server.delete kv k).map (fun r => kvGet r.1 k') = .ok (kvGet kv k') ∧
    (Server.delete kv k).map (fun r => kvGet r.1 k) = .ok Option.none := by
  refine ⟨?_, ?_, ?_, ?_, ?_⟩
  · unfold Server.get
    rw [if_pos hk]
    rfl
  · unfold Server.mget
    rw [mgetVals_eq kv keys hkeys]
    rfl
  · unfold Server.set
    rw [if_pos hk]
    simp only [Except.map]
    rw [kvGet_kvSet_ne kv k v k' hne]
  · unfold Server.delete
    rw [if_pos hk]
    cases hv : kvGet kv k with
    | none => rfl
    | some w =>
      simp only [Except.map]
      rw [kvGet_kvDel_ne kv k k' hne]
  · unfold Server.delete
    rw [if_pos hk]
    cases hv : kvGet kv k with
    | none =>
      simp only [Except.map]
      rw [hv]
    | some w =>
      simp only [Except.map]
      rw [kvGet_kvDel_self kv k hnd]

/-- C10, witnessed at a two-entry store with k the key a and the other
key b. -/
theorem c10_store_frame_witness :
    (Server.get [(.str "a", .str "0"), (.str "b", .str "1")] (.str "a")).map Prod.fst =
      .ok [(.str "a", .str "0"), (.str "b", .str "1")] ∧
    (Server.mget [(.str "a", .str "0"), (.str "b", .str "1")] [.str "a"]).map Prod.fst =
      .ok [(.str "a", .str "0"), (.str "b", .str "1")] ∧
    (Server.set [(.str "a", .str "0"), (.str "b", .str "1")] (.str "a") (.str "v")).map
        (fun r => kvGet r.1 (.str "b")) =
      .ok (kvGet [(.str "a", .str "0"), (.str "b", .str "1")] (.str "b")) ∧
    (Server.delete [(.str "a", .str "0"), (.str "b", .str "1")] (.str "a")).map
        (fun r => kvGet r.1 (.str "b")) =
      .ok (kvGet [(.str "a", .str "0"), (.str "b", .str "1")] (.str "b")) ∧
    (Server.delete [(.str "a", .str "0"), (.str "b", .str "1")] (.str "a")).map
        (fun r => kvGet r.1 (.str "a")) = .ok Option.none :=
  c10_store_frame [(.str "a", .str "0"), (.str "b", .str "1")] (.str "a")
    (.str "v") (.str "b") [.str "a"] (by decide) (by decide) (by simp) (by decide)

end MiniRedis
